import Mathlib

/-!
# Simbolo.NativeLib host (`src/Simbolo.NativeLib/app.c`)

A shallow embedding of the C `main` of the symbolication host.  The host reads
five command-line arguments, probes two files with `access`, opens the plugin
with `dlopen`, resolves `symbolicate` with `dlsym`, calls it and prints the
returned location.

The process environment is explicit: a `World` answers the system calls the
program makes, and a run yields an `Outcome` (standard output, termination
status, and the ordered trace of the external calls that were made).

Library routines are modelled after their C / POSIX meaning:
* `access(path, F_OK)` yields an `int`; the program compares it with `-1`;
* `dlopen` / `dlsym` yield a pointer, `none` standing for `NULL`;
* `atoi` is `(int) strtol(s, NULL, 10)`: white space is skipped, an optional
  sign is read, then the longest run of decimal digits; no digits gives `0`;
* calling through a `NULL` function pointer, reading a field through a `NULL`
  struct pointer and printing a `NULL` string with `%s` have no defined
  behaviour in C; the model stops the run there with `Status.fault`.
-/

namespace Simbolo

/-! ## Data model -/

/-- `struct FrameInfo { char* mvid; char* method; int ilOffset; }`. -/
structure FrameInfo where
  mvid : String
  method : String
  ilOffset : Int
deriving DecidableEq, Repr

/-- `struct Location { char* file; int line; int column; }`; `file = none` is a
`NULL` string pointer. -/
structure Location where
  file : Option String
  line : Int
  column : Int
deriving DecidableEq, Repr

/-- The binding mode handed to `dlopen`. -/
inductive DlFlag where
  | RTLD_LAZY
  | RTLD_NOW
deriving DecidableEq, Repr

/-- External calls made by the program, in program order. -/
inductive Event where
  | access (path : String)
  | dlopen (path : String) (flag : DlFlag)
  | dlsym (handle : Option Nat) (symbol : String)
  | call (fn : Nat) (assemblyPath : String) (fi : FrameInfo)
deriving DecidableEq, Repr

/-- The operations of `main` that C leaves undefined on a null pointer. -/
inductive Fault where
  | callNull
  | derefNull
  | printNull
deriving DecidableEq, Repr

/-- How a run ends: `main` returns a status, or the run hits a `Fault`. -/
inductive Status where
  | exit (code : Int)
  | fault (why : Fault)
deriving DecidableEq, Repr

/-- The observable result of one run. -/
structure Outcome where
  stdout : String
  status : Status
  trace : List Event
deriving DecidableEq, Repr

/-- The environment of one run: the file system as seen by `access`, the
dynamic loader, and the code behind each function address.  Handles and
function addresses are numbers; `none` is `NULL`. -/
structure World where
  access : String → Int
  dlopen : String → DlFlag → Option Nat
  dlsym : Option Nat → String → Option Nat
  code : Nat → String → FrameInfo → Option Location

/-! ## `atoi` -/

/-- C `isspace` in the "C" locale: space, `\t`, `\n`, `\v`, `\f`, `\r`. -/
def isspace (c : Char) : Bool :=
  c.toNat = 32 || (9 ≤ c.toNat && c.toNat ≤ 13)

/-- C `isdigit`. -/
def isdigit (c : Char) : Bool :=
  48 ≤ c.toNat && c.toNat ≤ 57

/-- The value of the longest leading run of decimal digits, continuing from
`acc`; this is the digit loop of `strtol` in base 10. -/
def digitsValue : Nat → List Char → Nat
  | acc, [] => acc
  | acc, c :: cs =>
    if isdigit c then digitsValue (acc * 10 + (c.toNat - 48)) cs else acc

def LONG_MAX : Int := 2 ^ 63 - 1

def LONG_MIN : Int := -(2 ^ 63)

/-- Saturation of `strtol` at the ends of `long`. -/
def clampLong (x : Int) : Int :=
  if x > LONG_MAX then LONG_MAX else if x < LONG_MIN then LONG_MIN else x

/-- The optional sign of `strtol` followed by the digit run. -/
def signedDigits (s : List Char) : Int :=
  match s with
  | [] => 0
  | c :: cs =>
    if c.toNat = 45 then -((digitsValue 0 cs : Nat) : Int)
    else if c.toNat = 43 then ((digitsValue 0 cs : Nat) : Int)
    else ((digitsValue 0 (c :: cs) : Nat) : Int)

/-- `strtol(s, NULL, 10)`. -/
def strtol (s : List Char) : Int :=
  clampLong (signedDigits (s.dropWhile isspace))

/-- Conversion of a `long` to a 32-bit `int`. -/
def toInt32 (x : Int) : Int :=
  (x + 2 ^ 31) % 2 ^ 32 - 2 ^ 31

/-- `atoi(s)`, that is `(int) strtol(s, NULL, 10)`. -/
def atoi (s : String) : Int :=
  toInt32 (strtol s.data)

/-- The specification's reading of "the argument has a leading base-10
integer": after optional leading white space it starts with an optional sign
followed by a digit. -/
def hasLeadingInt (s : String) : Bool :=
  match s.data.dropWhile isspace with
  | [] => false
  | c :: cs =>
    if c.toNat = 45 ∨ c.toNat = 43 then
      match cs with
      | [] => false
      | d :: _ => isdigit d
    else isdigit c

/-! ## `main` -/

/-- `printf("%s %d:%d\n", file, line, column)`. -/
def formatLocation (file : String) (line column : Int) : String :=
  file ++ " " ++ toString line ++ ":" ++ toString column ++ "\n"

/-- The `main` of `app.c`.  `argv` holds the program name followed by the
user-supplied arguments, and `argc` is its length.  The three `return`
statements give the statuses 1, 2 and 3; reaching the closing brace of `main`
after the final `printf` is a return of 0.  The `trace` field lists the
external calls in the order the program makes them. -/
def main (w : World) (argv : List String) : Outcome :=
  let argc := argv.length
  if argc ≠ 6 then
    { stdout := "5 Arguments expected.\n", status := Status.exit 1, trace := [] }
  else
    let symbolicationLibPath := argv.getD 1 ""
    let assemblyPath := argv.getD 2 ""
    let mvid := argv.getD 3 ""
    let method := argv.getD 4 ""
    let ilOffset := atoi (argv.getD 5 "")
    if w.access symbolicationLibPath = -1 then
      { stdout := "Symbolication library not found at " ++ symbolicationLibPath ++ "\n",
        status := Status.exit 2,
        trace := [Event.access symbolicationLibPath] }
    else if w.access assemblyPath = -1 then
      { stdout := "Assembly not found at " ++ assemblyPath ++ "\n",
        status := Status.exit 3,
        trace := [Event.access symbolicationLibPath, Event.access assemblyPath] }
    else
      let fi : FrameInfo := { mvid := mvid, method := method, ilOffset := ilOffset }
      let handle := w.dlopen symbolicationLibPath DlFlag.RTLD_LAZY
      let func := w.dlsym handle "symbolicate"
      let loaded : List Event :=
        [Event.access symbolicationLibPath, Event.access assemblyPath,
         Event.dlopen symbolicationLibPath DlFlag.RTLD_LAZY,
         Event.dlsym handle "symbolicate"]
      match func with
      | none => { stdout := "", status := Status.fault Fault.callNull, trace := loaded }
      | some f =>
        let called := loaded ++ [Event.call f assemblyPath fi]
        match w.code f assemblyPath fi with
        | none => { stdout := "", status := Status.fault Fault.derefNull, trace := called }
        | some loc =>
          match loc.file with
          | none => { stdout := "", status := Status.fault Fault.printNull, trace := called }
          | some file =>
            { stdout := formatLocation file loc.line loc.column,
              status := Status.exit 0,
              trace := called }

/-! ## Concrete environments -/

/-- A plugin that answers every request with `a.cs`, line 10, column 4. -/
def stubLocation : Location := { file := some "a.cs", line := 10, column := 4 }

/-- Every file exists; the plugin loads at handle 1 and exports `symbolicate`
at address 7, which returns `stubLocation`. -/
def stubWorld : World :=
  { access := fun _ => 0
    dlopen := fun _ _ => some 1
    dlsym := fun h s => if h = some 1 ∧ s = "symbolicate" then some 7 else none
    code := fun _ _ _ => some stubLocation }

/-- No file exists. -/
def emptyWorld : World :=
  { stubWorld with access := fun _ => -1 }

/-- Only the file `plugin.so` exists. -/
def pluginOnlyWorld : World :=
  { stubWorld with access := fun p => if p = "plugin.so" then 0 else -1 }

/-- As `stubWorld`, with a plugin whose `symbolicate` returns `NULL`. -/
def nullResultWorld : World :=
  { stubWorld with code := fun _ _ _ => none }

/-- As `stubWorld`, but the library cannot be opened and the null handle
resolves nothing. -/
def loadFailWorld : World :=
  { stubWorld with dlopen := fun _ _ => none }

/-- As `stubWorld`, but the library does not export `symbolicate`. -/
def noSymbolWorld : World :=
  { stubWorld with dlsym := fun _ _ => none }

/-- The argument vector of the specification's example run. -/
def sampleArgv : List String :=
  ["app", "plugin.so", "app.dll", "00000000-0000-0000-0000-000000000000", "Foo.Bar", "17"]

/-- The example run with an offset argument that is not a number. -/
def badOffsetArgv : List String :=
  ["app", "plugin.so", "app.dll", "00000000-0000-0000-0000-000000000000", "Foo.Bar",
   "not-a-number"]

/-! ## Facts about `atoi` -/

/-- Each decimal digit character is a digit, is worth its number, and is neither
white space nor a sign. -/
theorem digitChar_facts (m : Nat) (h : m < 10) :
    isdigit (Nat.digitChar m) = true ∧ (Nat.digitChar m).toNat - 48 = m ∧
    isspace (Nat.digitChar m) = false ∧ (Nat.digitChar m).toNat ≠ 45 ∧
    (Nat.digitChar m).toNat ≠ 43 := by
  interval_cases m <;> decide

/-- Reading back the digits that `Nat.toDigitsCore` puts in front of `ds`. -/
theorem digitsValue_toDigitsCore (fuel : Nat) :
    ∀ (n : Nat) (ds : List Char), n < fuel →
      digitsValue 0 (Nat.toDigitsCore 10 fuel n ds) = digitsValue n ds := by
  induction fuel with
  | zero => intro n ds h; omega
  | succ fuel ih =>
    intro n ds h
    have hd := digitChar_facts (n % 10) (Nat.mod_lt _ (by decide))
    unfold Nat.toDigitsCore
    by_cases hq : n / 10 = 0
    · simp only [hq, if_true]
      have hn : n % 10 = n := by omega
      rw [hn] at hd ⊢
      simp [digitsValue, hd.1, hd.2.1]
    · simp only [hq, if_false]
      rw [ih (n / 10) _ (by omega)]
      simp only [digitsValue, hd.1, hd.2.1, if_true]
      congr 1
      omega

/-- The rendering of a number starts with a decimal digit. -/
theorem toDigitsCore_head (fuel : Nat) :
    ∀ (n : Nat) (ds : List Char),
      ∃ m rest, m < 10 ∧ Nat.toDigitsCore 10 (fuel + 1) n ds = Nat.digitChar m :: rest := by
  induction fuel with
  | zero =>
    intro n ds
    refine ⟨n % 10, ds, Nat.mod_lt _ (by decide), ?_⟩
    simp [Nat.toDigitsCore]
  | succ fuel ih =>
    intro n ds
    unfold Nat.toDigitsCore
    by_cases hq : n / 10 = 0
    · exact ⟨n % 10, ds, Nat.mod_lt _ (by decide), by simp [hq]⟩
    · simp only [hq, if_false]
      exact ih _ _

/-- The decimal rendering of `n` has no leading white space and reads back as
`n`. -/
theorem strtol_repr (n : Nat) :
    (Nat.toDigits 10 n).dropWhile isspace = Nat.toDigits 10 n ∧
    signedDigits (Nat.toDigits 10 n) = n ∧
    digitsValue 0 (Nat.toDigits 10 n) = n := by
  obtain ⟨m, rest, hm, hrest⟩ := toDigitsCore_head n n []
  have hd := digitChar_facts m hm
  have hv : digitsValue 0 (Nat.toDigits 10 n) = n := by
    unfold Nat.toDigits
    rw [digitsValue_toDigitsCore (n + 1) n [] (by omega)]
    rfl
  refine ⟨?_, ?_, hv⟩
  · unfold Nat.toDigits
    rw [hrest]
    simp [List.dropWhile, hd.2.2.1]
  · have hs : signedDigits (Nat.toDigits 10 n) = ((digitsValue 0 (Nat.toDigits 10 n) : Nat) : Int) := by
      unfold Nat.toDigits
      rw [hrest]
      simp only [signedDigits, hd.2.2.2.1, hd.2.2.2.2, if_false]
    rw [hs, hv]

/-- Values in the range of `int` pass unchanged through saturation and the
conversion to `int`. -/
theorem toInt32_clampLong (x : Int) (hlo : -(2 ^ 31) ≤ x) (hhi : x < 2 ^ 31) :
    toInt32 (clampLong x) = x := by
  have h1 : ¬ x > LONG_MAX := by unfold LONG_MAX; omega
  have h2 : ¬ x < LONG_MIN := by unfold LONG_MIN; omega
  unfold clampLong toInt32
  rw [if_neg h1, if_neg h2]
  omega

/-- Reading back with `atoi` the decimal rendering of an `int`. -/
theorem atoi_toString (n : Int) (hlo : -(2 ^ 31) ≤ n) (hhi : n < 2 ^ 31) :
    atoi (toString n) = n := by
  cases n with
  | ofNat m =>
    have hdata : (toString (Int.ofNat m)).data = Nat.toDigits 10 m := rfl
    obtain ⟨h1, h2, _⟩ := strtol_repr m
    unfold atoi strtol
    rw [hdata, h1, h2]
    exact toInt32_clampLong _ hlo hhi
  | negSucc m =>
    have hdata : (toString (Int.negSucc m)).data = '-' :: Nat.toDigits 10 (m + 1) := rfl
    obtain ⟨_, _, h3⟩ := strtol_repr (m + 1)
    have hs : signedDigits ('-' :: Nat.toDigits 10 (m + 1)) = Int.negSucc m := by
      simp only [signedDigits]
      rw [if_pos (by decide), h3]
      rfl
    unfold atoi strtol
    rw [hdata]
    have hdrop : List.dropWhile isspace ('-' :: Nat.toDigits 10 (m + 1)) =
        '-' :: Nat.toDigits 10 (m + 1) := by
      rw [List.dropWhile_cons]
      simp [show isspace '-' = false by decide]
    rw [hdrop, hs]
    exact toInt32_clampLong _ hlo hhi

/-- Without a leading integer `atoi` yields 0. -/
theorem atoi_no_leading_int (s : String) (h : hasLeadingInt s = false) : atoi s = 0 := by
  unfold hasLeadingInt at h
  unfold atoi strtol
  cases hd : s.data.dropWhile isspace with
  | nil => rfl
  | cons c cs =>
    rw [hd] at h
    simp only at h
    by_cases hsign : c.toNat = 45 ∨ c.toNat = 43
    · rw [if_pos hsign] at h
      have hz : digitsValue 0 cs = 0 := by
        cases cs with
        | nil => rfl
        | cons d ds => simp only at h; simp [digitsValue, h]
      rcases hsign with h45 | h43
      · simp [signedDigits, h45, hz]; rfl
      · have : c.toNat ≠ 45 := by omega
        simp [signedDigits, h43, this, hz]; rfl
    · rw [if_neg hsign] at h
      have h45 : c.toNat ≠ 45 := fun e => hsign (Or.inl e)
      have h43 : c.toNat ≠ 43 := fun e => hsign (Or.inr e)
      simp [signedDigits, h45, h43, digitsValue, h]; rfl

/-! ## The four ways a run goes on after the file checks -/

/-- With both files found and `symbolicate` unresolved, the run ends in the
call through the null function pointer. -/
theorem main_of_unresolved (w : World) (a0 a1 a2 a3 a4 a5 : String)
    (hp : w.access a1 ≠ -1) (ha : w.access a2 ≠ -1)
    (hf : w.dlsym (w.dlopen a1 DlFlag.RTLD_LAZY) "symbolicate" = none) :
    main w [a0, a1, a2, a3, a4, a5] =
      { stdout := "", status := Status.fault Fault.callNull,
        trace :=
          [Event.access a1, Event.access a2, Event.dlopen a1 DlFlag.RTLD_LAZY,
           Event.dlsym (w.dlopen a1 DlFlag.RTLD_LAZY) "symbolicate"] } := by
  simp [main, hp, ha, hf]

/-- With `symbolicate` resolved and returning `NULL`, the run ends in the read
through the null result. -/
theorem main_of_null_result (w : World) (a0 a1 a2 a3 a4 a5 : String) (f : Nat)
    (hp : w.access a1 ≠ -1) (ha : w.access a2 ≠ -1)
    (hf : w.dlsym (w.dlopen a1 DlFlag.RTLD_LAZY) "symbolicate" = some f)
    (hcode : w.code f a2 { mvid := a3, method := a4, ilOffset := atoi a5 } = none) :
    main w [a0, a1, a2, a3, a4, a5] =
      { stdout := "", status := Status.fault Fault.derefNull,
        trace :=
          [Event.access a1, Event.access a2, Event.dlopen a1 DlFlag.RTLD_LAZY,
           Event.dlsym (w.dlopen a1 DlFlag.RTLD_LAZY) "symbolicate",
           Event.call f a2 { mvid := a3, method := a4, ilOffset := atoi a5 }] } := by
  simp [main, hp, ha, hf, hcode]

/-- With `symbolicate` returning a location whose file is `NULL`, the run ends
in the `printf` of the null string. -/
theorem main_of_null_file (w : World) (a0 a1 a2 a3 a4 a5 : String) (f : Nat) (loc : Location)
    (hp : w.access a1 ≠ -1) (ha : w.access a2 ≠ -1)
    (hf : w.dlsym (w.dlopen a1 DlFlag.RTLD_LAZY) "symbolicate" = some f)
    (hcode : w.code f a2 { mvid := a3, method := a4, ilOffset := atoi a5 } = some loc)
    (hfile : loc.file = none) :
    main w [a0, a1, a2, a3, a4, a5] =
      { stdout := "", status := Status.fault Fault.printNull,
        trace :=
          [Event.access a1, Event.access a2, Event.dlopen a1 DlFlag.RTLD_LAZY,
           Event.dlsym (w.dlopen a1 DlFlag.RTLD_LAZY) "symbolicate",
           Event.call f a2 { mvid := a3, method := a4, ilOffset := atoi a5 }] } := by
  simp [main, hp, ha, hf, hcode, hfile]

/-- With `symbolicate` returning a location with a file, the run prints it and
returns 0. -/
theorem main_of_location (w : World) (a0 a1 a2 a3 a4 a5 : String) (f : Nat) (loc : Location)
    (file : String)
    (hp : w.access a1 ≠ -1) (ha : w.access a2 ≠ -1)
    (hf : w.dlsym (w.dlopen a1 DlFlag.RTLD_LAZY) "symbolicate" = some f)
    (hcode : w.code f a2 { mvid := a3, method := a4, ilOffset := atoi a5 } = some loc)
    (hfile : loc.file = some file) :
    main w [a0, a1, a2, a3, a4, a5] =
      { stdout := file ++ " " ++ toString loc.line ++ ":" ++ toString loc.column ++ "\n",
        status := Status.exit 0,
        trace :=
          [Event.access a1, Event.access a2, Event.dlopen a1 DlFlag.RTLD_LAZY,
           Event.dlsym (w.dlopen a1 DlFlag.RTLD_LAZY) "symbolicate",
           Event.call f a2 { mvid := a3, method := a4, ilOffset := atoi a5 }] } := by
  simp [main, hp, ha, hf, hcode, hfile, formatLocation]

/-! ## Argument and file checks -/

/-- C1: with an argument count other than five (`argc ≠ 6`) the run prints
`5 Arguments expected.`, returns status 1 and makes no external call at all:
no `access`, no `dlopen`, no `dlsym`, no plugin call. -/
theorem main_wrong_argc (w : World) (argv : List String) (h : argv.length ≠ 6) :
    main w argv =
      { stdout := "5 Arguments expected.\n", status := Status.exit 1, trace := [] } := by
  simp [main, h]

theorem main_wrong_argc_witness :
    ["app", "plugin.so"].length ≠ 6 ∧
    main emptyWorld ["app", "plugin.so"] =
      { stdout := "5 Arguments expected.\n", status := Status.exit 1, trace := [] } :=
  ⟨by decide, main_wrong_argc emptyWorld ["app", "plugin.so"] (by decide)⟩

/-- C2: with five arguments and a plugin path that `access` reports missing, the
run returns status 2, its output is the message built around the given plugin
path, and the only external call made is the probe of the plugin path: the
assembly path is not probed, whatever the remaining arguments and the state of
the assembly file are. -/
theorem main_plugin_not_found (w : World) (a0 a1 a2 a3 a4 a5 : String)
    (h : w.access a1 = -1) :
    main w [a0, a1, a2, a3, a4, a5] =
      { stdout := "Symbolication library not found at " ++ a1 ++ "\n",
        status := Status.exit 2,
        trace := [Event.access a1] } ∧
    a1.data <:+: (main w [a0, a1, a2, a3, a4, a5]).stdout.data := by
  have hrun : main w [a0, a1, a2, a3, a4, a5] =
      { stdout := "Symbolication library not found at " ++ a1 ++ "\n",
        status := Status.exit 2,
        trace := [Event.access a1] } := by
    simp [main, h]
  refine ⟨hrun, ?_⟩
  rw [hrun]
  exact ⟨"Symbolication library not found at ".data, "\n".data, by simp⟩

theorem main_plugin_not_found_witness :
    emptyWorld.access "plugin.so" = -1 ∧
    (main emptyWorld sampleArgv =
      { stdout := "Symbolication library not found at " ++ "plugin.so" ++ "\n",
        status := Status.exit 2,
        trace := [Event.access "plugin.so"] } ∧
     "plugin.so".data <:+: (main emptyWorld sampleArgv).stdout.data) :=
  ⟨by decide,
   main_plugin_not_found emptyWorld "app" "plugin.so" "app.dll"
     "00000000-0000-0000-0000-000000000000" "Foo.Bar" "17" (by decide)⟩

/-- C3: with five arguments, a plugin path that `access` finds and an assembly
path that it reports missing, the run returns status 3, its output is the
message built around the given assembly path, and the external calls are the
two probes only: the plugin is neither opened, resolved nor called. -/
theorem main_assembly_not_found (w : World) (a0 a1 a2 a3 a4 a5 : String)
    (hp : w.access a1 ≠ -1) (ha : w.access a2 = -1) :
    main w [a0, a1, a2, a3, a4, a5] =
      { stdout := "Assembly not found at " ++ a2 ++ "\n",
        status := Status.exit 3,
        trace := [Event.access a1, Event.access a2] } ∧
    a2.data <:+: (main w [a0, a1, a2, a3, a4, a5]).stdout.data := by
  have hrun : main w [a0, a1, a2, a3, a4, a5] =
      { stdout := "Assembly not found at " ++ a2 ++ "\n",
        status := Status.exit 3,
        trace := [Event.access a1, Event.access a2] } := by
    simp [main, hp, ha]
  refine ⟨hrun, ?_⟩
  rw [hrun]
  exact ⟨"Assembly not found at ".data, "\n".data, by simp⟩

theorem main_assembly_not_found_witness :
    pluginOnlyWorld.access "plugin.so" ≠ -1 ∧ pluginOnlyWorld.access "app.dll" = -1 ∧
    (main pluginOnlyWorld sampleArgv =
      { stdout := "Assembly not found at " ++ "app.dll" ++ "\n",
        status := Status.exit 3,
        trace := [Event.access "plugin.so", Event.access "app.dll"] } ∧
     "app.dll".data <:+: (main pluginOnlyWorld sampleArgv).stdout.data) :=
  ⟨by decide, by decide,
   main_assembly_not_found pluginOnlyWorld "app" "plugin.so" "app.dll"
     "00000000-0000-0000-0000-000000000000" "Foo.Bar" "17" (by decide) (by decide)⟩

/-! ## The successful run -/

/-- C4: with five arguments, both files found, `symbolicate` resolved to `f`,
and `f` returning a location with file `file`, line `line` and column
`column`, the standard output is exactly `file`, a space, `line` in decimal, a
colon, `column` in decimal and a line end, and the exit status is 0. -/
theorem main_prints_location (w : World) (a0 a1 a2 a3 a4 a5 : String) (f : Nat)
    (file : String) (line column : Int)
    (hp : w.access a1 ≠ -1) (ha : w.access a2 ≠ -1)
    (hf : w.dlsym (w.dlopen a1 DlFlag.RTLD_LAZY) "symbolicate" = some f)
    (hloc : w.code f a2 { mvid := a3, method := a4, ilOffset := atoi a5 } =
      some { file := some file, line := line, column := column }) :
    (main w [a0, a1, a2, a3, a4, a5]).stdout =
      file ++ " " ++ toString line ++ ":" ++ toString column ++ "\n" ∧
    (main w [a0, a1, a2, a3, a4, a5]).status = Status.exit 0 := by
  simp [main, hp, ha, hf, hloc, formatLocation]

theorem main_prints_location_witness :
    stubWorld.access "plugin.so" ≠ -1 ∧ stubWorld.access "app.dll" ≠ -1 ∧
    stubWorld.dlsym (stubWorld.dlopen "plugin.so" DlFlag.RTLD_LAZY) "symbolicate" = some 7 ∧
    stubWorld.code 7 "app.dll"
      { mvid := "00000000-0000-0000-0000-000000000000", method := "Foo.Bar",
        ilOffset := atoi "17" } =
      some { file := some "a.cs", line := 10, column := 4 } ∧
    (main stubWorld sampleArgv).stdout = "a.cs 10:4\n" ∧
    (main stubWorld sampleArgv).status = Status.exit 0 :=
  ⟨by decide, by decide, by decide, by decide,
   main_prints_location stubWorld "app" "plugin.so" "app.dll"
     "00000000-0000-0000-0000-000000000000" "Foo.Bar" "17" 7 "a.cs" 10 4
     (by decide) (by decide) (by decide) (by decide)⟩

/-! ## The plugin call -/

/-- C5: in every run that reaches the plugin call (five arguments, both files
found, `symbolicate` resolved to `f`), the entry point is called exactly once,
after the two probes, `dlopen` and `dlsym`, with the assembly path `argv[2]`
first and then the frame `(argv[3], argv[4], atoi argv[5])`; and when
`argv[5]` is the decimal rendering of an integer `n` in the range of `int`
(negative or not), the forwarded `ilOffset` is `n` itself. -/
theorem main_forwards_frame (w : World) (a0 a1 a2 a3 a4 a5 : String) (f : Nat)
    (hp : w.access a1 ≠ -1) (ha : w.access a2 ≠ -1)
    (hf : w.dlsym (w.dlopen a1 DlFlag.RTLD_LAZY) "symbolicate" = some f) :
    (main w [a0, a1, a2, a3, a4, a5]).trace =
      [Event.access a1, Event.access a2, Event.dlopen a1 DlFlag.RTLD_LAZY,
       Event.dlsym (w.dlopen a1 DlFlag.RTLD_LAZY) "symbolicate",
       Event.call f a2 { mvid := a3, method := a4, ilOffset := atoi a5 }] ∧
    ∀ n : Int, -(2 ^ 31) ≤ n → n < 2 ^ 31 → a5 = toString n →
      (main w [a0, a1, a2, a3, a4, a5]).trace =
        [Event.access a1, Event.access a2, Event.dlopen a1 DlFlag.RTLD_LAZY,
         Event.dlsym (w.dlopen a1 DlFlag.RTLD_LAZY) "symbolicate",
         Event.call f a2 { mvid := a3, method := a4, ilOffset := n }] := by
  have htrace : (main w [a0, a1, a2, a3, a4, a5]).trace =
      [Event.access a1, Event.access a2, Event.dlopen a1 DlFlag.RTLD_LAZY,
       Event.dlsym (w.dlopen a1 DlFlag.RTLD_LAZY) "symbolicate",
       Event.call f a2 { mvid := a3, method := a4, ilOffset := atoi a5 }] := by
    simp only [main, List.length_cons, List.length_nil, ne_eq, not_true_eq_false, if_false,
      List.getD_cons_succ, List.getD_cons_zero, hp, ha, hf]
    cases hc : w.code f a2 { mvid := a3, method := a4, ilOffset := atoi a5 } with
    | none => rfl
    | some loc =>
      cases hfile : loc.file with
      | none => simp [hfile]
      | some file => simp [hfile]
  refine ⟨htrace, ?_⟩
  intro n hlo hhi hn
  rw [htrace, hn, atoi_toString n hlo hhi]

theorem main_forwards_frame_witness :
    stubWorld.access "plugin.so" ≠ -1 ∧ stubWorld.access "app.dll" ≠ -1 ∧
    stubWorld.dlsym (stubWorld.dlopen "plugin.so" DlFlag.RTLD_LAZY) "symbolicate" = some 7 ∧
    ((main stubWorld ["app", "plugin.so", "app.dll", "mvid", "Foo.Bar", "-17"]).trace =
      [Event.access "plugin.so", Event.access "app.dll",
       Event.dlopen "plugin.so" DlFlag.RTLD_LAZY,
       Event.dlsym (stubWorld.dlopen "plugin.so" DlFlag.RTLD_LAZY) "symbolicate",
       Event.call 7 "app.dll" { mvid := "mvid", method := "Foo.Bar", ilOffset := atoi "-17" }] ∧
     ∀ n : Int, -(2 ^ 31) ≤ n → n < 2 ^ 31 → "-17" = toString n →
      (main stubWorld ["app", "plugin.so", "app.dll", "mvid", "Foo.Bar", "-17"]).trace =
        [Event.access "plugin.so", Event.access "app.dll",
         Event.dlopen "plugin.so" DlFlag.RTLD_LAZY,
         Event.dlsym (stubWorld.dlopen "plugin.so" DlFlag.RTLD_LAZY) "symbolicate",
         Event.call 7 "app.dll" { mvid := "mvid", method := "Foo.Bar", ilOffset := n }]) :=
  ⟨by decide, by decide, by decide,
   main_forwards_frame stubWorld "app" "plugin.so" "app.dll" "mvid" "Foo.Bar" "-17" 7
     (by decide) (by decide) (by decide)⟩

/-! ## Unchecked results of loading and calling -/

/-- C6: what `main` does when the plugin returns `NULL`: on the example
arguments with such a plugin the run calls `symbolicate`, prints nothing and
ends in the read through the null result, not in an exit status. -/
theorem main_null_result_faults :
    main nullResultWorld sampleArgv =
      { stdout := "",
        status := Status.fault Fault.derefNull,
        trace :=
          [Event.access "plugin.so", Event.access "app.dll",
           Event.dlopen "plugin.so" DlFlag.RTLD_LAZY, Event.dlsym (some 1) "symbolicate",
           Event.call 7 "app.dll"
             { mvid := "00000000-0000-0000-0000-000000000000", method := "Foo.Bar",
               ilOffset := 17 }] } := by
  decide

/-- C7: what `main` does when loading fails: with a library that cannot be
opened the null handle is handed to `dlsym`, and with a library that lacks
`symbolicate` (or a null handle that resolves nothing) the run prints nothing
and ends in the call through the null function pointer, not in an exit
status. -/
theorem main_load_failure_faults :
    main loadFailWorld sampleArgv =
      { stdout := "",
        status := Status.fault Fault.callNull,
        trace :=
          [Event.access "plugin.so", Event.access "app.dll",
           Event.dlopen "plugin.so" DlFlag.RTLD_LAZY, Event.dlsym none "symbolicate"] } ∧
    main noSymbolWorld sampleArgv =
      { stdout := "",
        status := Status.fault Fault.callNull,
        trace :=
          [Event.access "plugin.so", Event.access "app.dll",
           Event.dlopen "plugin.so" DlFlag.RTLD_LAZY, Event.dlsym (some 1) "symbolicate"] } := by
  decide

/-! ## An offset argument that is not a number -/

/-- C8, as stated, fails: on the example arguments with offset `not-a-number`,
both files found and the stub plugin, the run takes no error exit; it calls the
plugin with `ilOffset = 0`, prints the location and exits with status 0. -/
theorem main_bad_offset_not_rejected :
    main stubWorld badOffsetArgv =
      { stdout := "a.cs 10:4\n",
        status := Status.exit 0,
        trace :=
          [Event.access "plugin.so", Event.access "app.dll",
           Event.dlopen "plugin.so" DlFlag.RTLD_LAZY, Event.dlsym (some 1) "symbolicate",
           Event.call 7 "app.dll"
             { mvid := "00000000-0000-0000-0000-000000000000", method := "Foo.Bar",
               ilOffset := 0 }] } := by
  decide

/-- C8, amended: with five arguments and both files found, the host has no
error exit for the offset argument, whatever its text and so also when it is
not a base-10 integer: the only exit status such a run can return is 0; once
`symbolicate` is resolved the plugin is called exactly once, with the assembly
path and `ilOffset = atoi argv[5]`, whatever the plugin then returns; that
value is 0 when the argument has no leading base-10 integer; and when the
plugin returns a location the host prints it and exits with status 0. -/
theorem main_offset_not_validated (w : World) (a0 a1 a2 a3 a4 a5 : String)
    (hp : w.access a1 ≠ -1) (ha : w.access a2 ≠ -1) :
    (∀ c : Int, (main w [a0, a1, a2, a3, a4, a5]).status = Status.exit c → c = 0) ∧
    ∀ f : Nat, w.dlsym (w.dlopen a1 DlFlag.RTLD_LAZY) "symbolicate" = some f →
      (main w [a0, a1, a2, a3, a4, a5]).trace =
        [Event.access a1, Event.access a2, Event.dlopen a1 DlFlag.RTLD_LAZY,
         Event.dlsym (w.dlopen a1 DlFlag.RTLD_LAZY) "symbolicate",
         Event.call f a2 { mvid := a3, method := a4, ilOffset := atoi a5 }] ∧
      (hasLeadingInt a5 = false →
        (main w [a0, a1, a2, a3, a4, a5]).trace =
          [Event.access a1, Event.access a2, Event.dlopen a1 DlFlag.RTLD_LAZY,
           Event.dlsym (w.dlopen a1 DlFlag.RTLD_LAZY) "symbolicate",
           Event.call f a2 { mvid := a3, method := a4, ilOffset := 0 }]) ∧
      ∀ (file : String) (line column : Int),
        w.code f a2 { mvid := a3, method := a4, ilOffset := atoi a5 } =
          some { file := some file, line := line, column := column } →
        (main w [a0, a1, a2, a3, a4, a5]).stdout =
          file ++ " " ++ toString line ++ ":" ++ toString column ++ "\n" ∧
        (main w [a0, a1, a2, a3, a4, a5]).status = Status.exit 0 := by
  refine ⟨?_, ?_⟩
  · intro c hc
    cases hsym : w.dlsym (w.dlopen a1 DlFlag.RTLD_LAZY) "symbolicate" with
    | none =>
      rw [main_of_unresolved w a0 a1 a2 a3 a4 a5 hp ha hsym] at hc
      cases hc
    | some f =>
      cases hcode : w.code f a2 { mvid := a3, method := a4, ilOffset := atoi a5 } with
      | none =>
        rw [main_of_null_result w a0 a1 a2 a3 a4 a5 f hp ha hsym hcode] at hc
        cases hc
      | some loc =>
        cases hfile : loc.file with
        | none =>
          rw [main_of_null_file w a0 a1 a2 a3 a4 a5 f loc hp ha hsym hcode hfile] at hc
          cases hc
        | some file =>
          rw [main_of_location w a0 a1 a2 a3 a4 a5 f loc file hp ha hsym hcode hfile] at hc
          cases hc
          rfl
  · intro f hf
    have htrace : (main w [a0, a1, a2, a3, a4, a5]).trace =
        [Event.access a1, Event.access a2, Event.dlopen a1 DlFlag.RTLD_LAZY,
         Event.dlsym (w.dlopen a1 DlFlag.RTLD_LAZY) "symbolicate",
         Event.call f a2 { mvid := a3, method := a4, ilOffset := atoi a5 }] := by
      cases hcode : w.code f a2 { mvid := a3, method := a4, ilOffset := atoi a5 } with
      | none => rw [main_of_null_result w a0 a1 a2 a3 a4 a5 f hp ha hf hcode]
      | some loc =>
        cases hfile : loc.file with
        | none => rw [main_of_null_file w a0 a1 a2 a3 a4 a5 f loc hp ha hf hcode hfile]
        | some file => rw [main_of_location w a0 a1 a2 a3 a4 a5 f loc file hp ha hf hcode hfile]
    refine ⟨htrace, ?_, ?_⟩
    · intro hnum
      rw [htrace, atoi_no_leading_int a5 hnum]
    · intro file line column hloc
      rw [main_of_location w a0 a1 a2 a3 a4 a5 f _ file hp ha hf hloc rfl]
      exact ⟨rfl, rfl⟩

theorem main_offset_not_validated_witness :
    stubWorld.access "plugin.so" ≠ -1 ∧ stubWorld.access "app.dll" ≠ -1 ∧
    ((∀ c : Int,
      (main stubWorld ["app", "plugin.so", "app.dll", "mvid", "Foo.Bar", "12abc"]).status =
        Status.exit c → c = 0) ∧
     ∀ f : Nat,
      stubWorld.dlsym (stubWorld.dlopen "plugin.so" DlFlag.RTLD_LAZY) "symbolicate" = some f →
      (main stubWorld ["app", "plugin.so", "app.dll", "mvid", "Foo.Bar", "12abc"]).trace =
        [Event.access "plugin.so", Event.access "app.dll",
         Event.dlopen "plugin.so" DlFlag.RTLD_LAZY,
         Event.dlsym (stubWorld.dlopen "plugin.so" DlFlag.RTLD_LAZY) "symbolicate",
         Event.call f "app.dll"
           { mvid := "mvid", method := "Foo.Bar", ilOffset := atoi "12abc" }] ∧
      (hasLeadingInt "12abc" = false →
        (main stubWorld ["app", "plugin.so", "app.dll", "mvid", "Foo.Bar", "12abc"]).trace =
          [Event.access "plugin.so", Event.access "app.dll",
           Event.dlopen "plugin.so" DlFlag.RTLD_LAZY,
           Event.dlsym (stubWorld.dlopen "plugin.so" DlFlag.RTLD_LAZY) "symbolicate",
           Event.call f "app.dll" { mvid := "mvid", method := "Foo.Bar", ilOffset := 0 }]) ∧
      ∀ (file : String) (line column : Int),
        stubWorld.code f "app.dll"
            { mvid := "mvid", method := "Foo.Bar", ilOffset := atoi "12abc" } =
          some { file := some file, line := line, column := column } →
        (main stubWorld ["app", "plugin.so", "app.dll", "mvid", "Foo.Bar", "12abc"]).stdout =
          file ++ " " ++ toString line ++ ":" ++ toString column ++ "\n" ∧
        (main stubWorld ["app", "plugin.so", "app.dll", "mvid", "Foo.Bar", "12abc"]).status =
          Status.exit 0) :=
  ⟨by decide, by decide,
   main_offset_not_validated stubWorld "app" "plugin.so" "app.dll" "mvid" "Foo.Bar" "12abc"
     (by decide) (by decide)⟩

/-- C10: an offset argument `s` without a leading base-10 integer is read as 0
and nothing else comes of it: the whole run (output, status, external calls) is
the run on the argument `0`, so no message and no error exit is due to `s`;
when either file is missing the run is the same for every sixth argument; and
when the plugin call is reached the frame forwarded has `ilOffset = 0`. -/
theorem main_unparseable_offset_is_zero (w : World) (a0 a1 a2 a3 a4 s : String)
    (h : hasLeadingInt s = false) :
    atoi s = 0 ∧
    main w [a0, a1, a2, a3, a4, s] = main w [a0, a1, a2, a3, a4, "0"] ∧
    ((w.access a1 = -1 ∨ w.access a2 = -1) →
      ∀ t : String, main w [a0, a1, a2, a3, a4, s] = main w [a0, a1, a2, a3, a4, t]) ∧
    (∀ f : Nat, w.access a1 ≠ -1 → w.access a2 ≠ -1 →
      w.dlsym (w.dlopen a1 DlFlag.RTLD_LAZY) "symbolicate" = some f →
      (main w [a0, a1, a2, a3, a4, s]).trace =
        [Event.access a1, Event.access a2, Event.dlopen a1 DlFlag.RTLD_LAZY,
         Event.dlsym (w.dlopen a1 DlFlag.RTLD_LAZY) "symbolicate",
         Event.call f a2 { mvid := a3, method := a4, ilOffset := 0 }]) := by
  have hz : atoi s = 0 := atoi_no_leading_int s h
  have h0 : atoi "0" = 0 := by decide
  refine ⟨hz, ?_, ?_, ?_⟩
  · simp only [main, List.length_cons, List.length_nil, List.getD_cons_succ,
      List.getD_cons_zero, hz, h0]
  · intro hmiss t
    by_cases hp : w.access a1 = -1
    · simp [main, hp]
    · rcases hmiss with hm | hm
      · exact absurd hm hp
      · simp [main, hp, hm]
  · intro f hp ha hf
    simp only [main, List.length_cons, List.length_nil, ne_eq, not_true_eq_false, if_false,
      List.getD_cons_succ, List.getD_cons_zero, hp, ha, hf, hz]
    cases hc : w.code f a2 { mvid := a3, method := a4, ilOffset := 0 } with
    | none => rfl
    | some loc =>
      cases hfile : loc.file with
      | none => simp [hfile]
      | some file => simp [hfile]

theorem main_unparseable_offset_is_zero_witness :
    hasLeadingInt "" = false ∧
    (atoi "" = 0 ∧
     main pluginOnlyWorld ["app", "plugin.so", "app.dll", "mvid", "Foo.Bar", ""] =
       main pluginOnlyWorld ["app", "plugin.so", "app.dll", "mvid", "Foo.Bar", "0"] ∧
     ((pluginOnlyWorld.access "plugin.so" = -1 ∨ pluginOnlyWorld.access "app.dll" = -1) →
       ∀ t : String,
         main pluginOnlyWorld ["app", "plugin.so", "app.dll", "mvid", "Foo.Bar", ""] =
           main pluginOnlyWorld ["app", "plugin.so", "app.dll", "mvid", "Foo.Bar", t]) ∧
     (∀ f : Nat, pluginOnlyWorld.access "plugin.so" ≠ -1 →
       pluginOnlyWorld.access "app.dll" ≠ -1 →
       pluginOnlyWorld.dlsym (pluginOnlyWorld.dlopen "plugin.so" DlFlag.RTLD_LAZY)
         "symbolicate" = some f →
       (main pluginOnlyWorld ["app", "plugin.so", "app.dll", "mvid", "Foo.Bar", ""]).trace =
         [Event.access "plugin.so", Event.access "app.dll",
          Event.dlopen "plugin.so" DlFlag.RTLD_LAZY,
          Event.dlsym (pluginOnlyWorld.dlopen "plugin.so" DlFlag.RTLD_LAZY) "symbolicate",
          Event.call f "app.dll" { mvid := "mvid", method := "Foo.Bar", ilOffset := 0 }])) :=
  ⟨by decide,
   main_unparseable_offset_is_zero pluginOnlyWorld "app" "plugin.so" "app.dll" "mvid"
     "Foo.Bar" "" (by decide)⟩

end Simbolo
